import Mathlib

/-!
# Verification of the companion human-handoff escalation subsystem

Shallow embedding of the escalation / handoff code of the repository:

* `Handoff`   — the Handoff Request Registry
                (`production-architecture/api/human-handoff-api.js`,
                `HumanHandoffAPI.createHandoff / getHandoff / respondToHandoff`);
* `FlowBrain` — the Escalation Engine
                (`production-architecture/core/browser-server.js`,
                `FlowBrain.classifyError / decideOnFailure / learnFromFailure /
                orchestrateExecution`);
* `ProductionAgent` — the urgency classifier
                (`production-architecture/agents/production-agent.js`,
                `ProductionAgent.classifyHandoff`);
* `StreamSrv` — the browser streaming session server
                (`src/handoff/browser-stream-server.ts`, `BrowserStreamServer`).

Timestamps are modelled as natural numbers (milliseconds since the epoch),
JavaScript `Map`s as association lists with `Map.set` update-or-append
semantics, and thrown exceptions / HTTP error responses as explicit outcome
constructors.
-/

/-! ## String helpers

JavaScript `String.prototype.toLowerCase` and `String.prototype.includes`,
used by the error and handoff classifiers.  Modelled over the character
list underlying a Lean `String`. -/

/-- `prefixOf p s` is true when the character list `p` is a prefix of `s`. -/
def prefixOf : List Char → List Char → Bool
  | [], _ => true
  | _ :: _, [] => false
  | a :: as, b :: bs => a == b && prefixOf as bs

/-- `containsSub s p` is true when `p` occurs as a contiguous sublist of `s`. -/
def containsSub : List Char → List Char → Bool
  | [], p => p.isEmpty
  | c :: t, p => prefixOf p (c :: t) || containsSub t p

/-- JavaScript `s.includes(pat)`. -/
def strIncludes (s pat : String) : Bool :=
  containsSub s.data pat.data

/-- JavaScript `s.toLowerCase()` (ASCII case folding). -/
def strLower (s : String) : String :=
  ⟨s.data.map Char.toLower⟩

/-! ## Handoff Request Registry

From `production-architecture/api/human-handoff-api.js`. -/

namespace Handoff

/-- The `urgency` field of a handoff request (`'normal' | 'high' | 'urgent'`
strings in the source). -/
inductive Urgency
  | normal
  | high
  | urgent
  deriving DecidableEq, Repr

/-- The `status` field of a handoff request
(`'waiting' | 'responded' | 'expired'` strings in the source). -/
inductive Status
  | waiting
  | responded
  | expired
  deriving DecidableEq, Repr

/-- The response recorded by `respondToHandoff` (the source additionally
stores `new_strategy`, `modifications` and `responded_by`, which no claim
touches and which are carried through unchanged). -/
structure HumanResponse where
  action : String
  comment : Option String
  responded_at : Nat
  deriving DecidableEq, Repr

/-- The `handoffData` record built by `createHandoff`.  The source also
carries `brain_id`, `reason`, `task`, `context`, `screenshot` and
`page_state`, which are stored verbatim and never consulted by the
registry operations. -/
structure Request where
  id : Nat
  options : List String
  urgency : Urgency
  status : Status
  created_at : Nat
  expires_at : Nat
  human_response : Option HumanResponse
  resolution_time : Option Nat
  deriving DecidableEq, Repr

/-- Association list with JavaScript `Map.set` update-or-append semantics. -/
def mapSet (m : List (Nat × Request)) (k : Nat) (v : Request) :
    List (Nat × Request) :=
  match m with
  | [] => [(k, v)]
  | (k', v') :: rest =>
      if k' = k then (k, v) :: rest else (k', v') :: mapSet rest k v

/-- JavaScript `Map.get`. -/
def mapGet (m : List (Nat × Request)) (k : Nat) : Option Request :=
  match m with
  | [] => none
  | (k', v') :: rest => if k' = k then some v' else mapGet rest k

/-- Registry state: `this.handoffs` plus the ids copied into
`this.completedHandoffs` by `respondToHandoff`.  In the source
`completedHandoffs` holds the *same object* as `handoffs` (entries are
aliased and never deleted from `handoffs`), so only the id needs
recording here. -/
structure RegistryState where
  handoffs : List (Nat × Request)
  completed : List Nat
  deriving DecidableEq, Repr

/-- The TTL inside `createHandoff`:
`urgency === 'urgent' ? 5*60*1000 : 30*60*1000`. -/
def ttl (u : Urgency) : Nat :=
  if u = .urgent then 5 * 60 * 1000 else 30 * 60 * 1000

/-- Default options when the request body omits them:
`options || ['continue', 'modify_approach', 'abort']`. -/
def defaultOptions : List String :=
  ["continue", "modify_approach", "abort"]

/-- The `handoffData` object assembled by `createHandoff` at time `now`
for fresh id `hid` (the source derives the id from `Date.now()` plus a
random suffix; it is a parameter here). -/
def createdRequest (now hid : Nat) (urgency : Urgency)
    (options : Option (List String)) : Request :=
  { id := hid
    options := options.getD defaultOptions
    urgency := urgency
    status := .waiting
    created_at := now
    expires_at := now + ttl urgency
    human_response := none
    resolution_time := none }

/-- Outcome of `createHandoff`: either the `201` response, or the
`TypeError` raised by `options.join(', ')` when the request body omitted
`options` (the destructured local `options` is `undefined` there, while
`handoffData.options` already holds the defaults). -/
inductive CreateOutcome
  | created (handoff_id : Nat) (expires_at : Nat)
  | typeError
  deriving DecidableEq, Repr

/-- `HumanHandoffAPI.createHandoff`.  The insertion
`this.handoffs.set(handoffId, handoffData)` precedes the
`console.log` that dereferences the possibly-`undefined` `options`,
so the request is registered even on the `TypeError` path. -/
def createHandoff (st : RegistryState) (now hid : Nat) (urgency : Urgency)
    (options : Option (List String)) : RegistryState × CreateOutcome :=
  let data := createdRequest now hid urgency options
  let st' : RegistryState := { st with handoffs := mapSet st.handoffs hid data }
  match options with
  | none => (st', .typeError)
  | some _ => (st', .created hid data.expires_at)

/-- `HumanHandoffAPI.getHandoff`.  When the request is found and
`new Date() > new Date(handoff.expires_at)`, the handler sets
`handoff.status = 'expired'` in place — with no check of the current
status — before serving the view. -/
def getHandoff (st : RegistryState) (now hid : Nat) :
    RegistryState × Option Request :=
  match mapGet st.handoffs hid with
  | none => (st, none)
  | some h =>
      let h' := if now > h.expires_at then { h with status := .expired } else h
      ({ st with handoffs := mapSet st.handoffs hid h' }, some h')

/-- Outcome of `respondToHandoff`: `404 Handoff not found`,
`400 Handoff already <status>`, `400 Invalid action` (with the
`available_options` list), or the `200` success payload. -/
inductive RespondOutcome
  | notFound
  | alreadyResolved (status : Status)
  | invalidAction (available_options : List String)
  | ok (response : HumanResponse)
  deriving DecidableEq, Repr

/-- `HumanHandoffAPI.respondToHandoff`.  Check order as in the source:
unknown id, then `status !== 'waiting'`, then
`!handoff.options.includes(action)`; on success the handler records the
response, sets `status = 'responded'` and `resolution_time`, and copies
the entry into `completedHandoffs`.  No check of `expires_at` occurs
anywhere on this path.  (`triggerAutomationResume` is invoked only after
the success response, never on a rejection.) -/
def respondToHandoff (st : RegistryState) (now hid : Nat) (action : String)
    (comment : Option String) : RegistryState × RespondOutcome :=
  match mapGet st.handoffs hid with
  | none => (st, .notFound)
  | some h =>
      if h.status ≠ .waiting then (st, .alreadyResolved h.status)
      else if ¬ (h.options.contains action) then (st, .invalidAction h.options)
      else
        let resp : HumanResponse :=
          { action := action, comment := comment, responded_at := now }
        let h' := { h with
          human_response := some resp
          status := .responded
          resolution_time := some (now - h.created_at) }
        ({ handoffs := mapSet st.handoffs hid h'
           completed := hid :: st.completed }, .ok resp)

/-- One registry operation, for stating invariants over operation
sequences. -/
inductive RegistryOp
  | create (now hid : Nat) (urgency : Urgency) (options : Option (List String))
  | get (now hid : Nat)
  | respond (now hid : Nat) (action : String) (comment : Option String)

/-- The state reached after one registry operation. -/
def applyOp (st : RegistryState) : RegistryOp → RegistryState
  | .create now hid u opts => (createHandoff st now hid u opts).1
  | .get now hid => (getHandoff st now hid).1
  | .respond now hid a c => (respondToHandoff st now hid a c).1

end Handoff

/-! ## Escalation Engine ("Flow Brain")

From `production-architecture/core/browser-server.js`. -/

namespace FlowBrain

/-- The error patterns returned by `FlowBrain.classifyError`.  This is the
complete set of values the source can produce; in particular no
`two_factor` pattern exists in the classifier. -/
inductive ErrorPattern
  | captcha_detected
  | timeout
  | selector_not_found
  | network_error
  | permission_error
  | unknown_error
  deriving DecidableEq, Repr

/-- `FlowBrain.classifyError`: case-insensitive keyword matching on the
failure message, in source order. -/
def classifyError (errorMessage : String) : ErrorPattern :=
  let e := strLower errorMessage
  if strIncludes e "captcha" || strIncludes e "recaptcha" then .captcha_detected
  else if strIncludes e "timeout" then .timeout
  else if strIncludes e "not found" || strIncludes e "selector" then .selector_not_found
  else if strIncludes e "network" || strIncludes e "connection" then .network_error
  else if strIncludes e "permission" || strIncludes e "access denied" then .permission_error
  else .unknown_error

/-- The `action` field of the decision returned by `decideOnFailure`
(`'retry'` or `'handoff'` in the source; `orchestrateExecution` also
tests for an `'abort'` action, which `decideOnFailure` never emits). -/
inductive DecisionAction
  | retry
  | handoff
  | abort
  deriving DecidableEq, Repr

/-- A decision of `decideOnFailure`.  `options` / `modifications` are empty
when the source object omits the field; the metadata-only `context`
payload attached to handoff decisions is not modelled (nothing reads it
besides persistence). -/
structure Decision where
  action : DecisionAction
  reason : String
  options : List String := []
  modifications : List String := []
  deriving DecidableEq, Repr

/-- `FlowBrain.decideOnFailure(result, attemptNumber, strategy)`.  Inputs:
the failed result's `error` text (`result.error || 'Unknown error'`), the
attempt counter as passed by the caller, and `this.context.failurePatterns`
(the set consulted through `seenBefore`).  The `strategy` argument is
unused by the decision logic and omitted. -/
def decideOnFailure (resultError : Option String) (attemptNumber : Nat)
    (failurePatterns : List ErrorPattern) : Decision :=
  let error := resultError.getD "Unknown error"
  let errorPattern := classifyError error
  let seenBefore := failurePatterns.contains errorPattern
  if errorPattern = .captcha_detected then
    { action := .handoff
      reason := "CAPTCHA detected - human verification required"
      options := ["solve_captcha", "try_different_approach", "abort_task"] }
  else if errorPattern = .selector_not_found ∧ attemptNumber < 2 then
    { action := .retry
      reason := "Selector not found - trying alternative approach"
      modifications := ["use_different_selector", "wait_longer", "refresh_page"] }
  else if errorPattern = .timeout ∧ seenBefore = false then
    { action := .retry
      reason := "Timeout - will retry with increased wait time"
      modifications := ["increase_timeout", "check_network"] }
  else if attemptNumber ≥ 2 then
    { action := .handoff
      reason := "Multiple failures detected (" ++ toString (attemptNumber + 1)
                  ++ " attempts)"
      options := ["manual_intervention", "change_strategy", "abort_task"] }
  else
    { action := .retry
      reason := "Retryable error - continuing with next strategy" }

/-- `FlowBrain.learnFromFailure`: adds the classified pattern to
`this.context.failurePatterns` if not already present (the list behaves
as a set).  It runs only when a whole orchestration fails, never inside
the retry loop. -/
def learnFromFailure (failurePatterns : List ErrorPattern)
    (errorMessage : String) : List ErrorPattern :=
  let pattern := classifyError errorMessage
  if failurePatterns.contains pattern then failurePatterns
  else failurePatterns ++ [pattern]

/-- `this.maxRetries` of `FlowBrain`. -/
def maxRetries : Nat := 3

/-- The sequence of decisions `FlowBrain.orchestrateExecution` obtains
from `decideOnFailure` when every attempt fails with the corresponding
error message.  Faithful to the loop: `currentAttempt` starts at `0`, is
incremented *before* `decideOnFailure` is consulted, the loop stops at
the first `handoff` (or `abort`) decision, and runs only while
`currentAttempt < maxRetries`.  `failurePatterns` is not updated inside
the loop. -/
def orchestrateDecisions : List String → Nat → List ErrorPattern → List Decision
  | [], _, _ => []
  | msg :: rest, currentAttempt, pats =>
    if currentAttempt < maxRetries then
      let attempt := currentAttempt + 1
      let d := decideOnFailure (some msg) attempt pats
      if d.action = .retry then d :: orchestrateDecisions rest attempt pats
      else [d]
    else []

end FlowBrain

/-! ## Handoff urgency classification

From `production-architecture/agents/production-agent.js`:
`handleIntelligentHandoff` forwards `classification.urgency` (derived from
the decision's `reason`) as the `urgency` of the created handoff request. -/

namespace ProductionAgent

/-- The classification record returned by `ProductionAgent.classifyHandoff`
(`type` is `htype` here, `type` being reserved). -/
structure HandoffClassification where
  htype : String
  urgency : Handoff.Urgency
  timeoutMs : Nat
  autoNotify : List String
  deriving DecidableEq, Repr

/-- `ProductionAgent.classifyHandoff`: keyword match on
`handoffData.decision.reason.toLowerCase()`, in source order. -/
def classifyHandoff (reason : String) : HandoffClassification :=
  let r := strLower reason
  if strIncludes r "captcha" then
    { htype := "captcha_intervention", urgency := .urgent
      timeoutMs := 5 * 60 * 1000
      autoNotify := ["security_team", "primary_operator"] }
  else if strIncludes r "multiple failures" then
    { htype := "strategy_consultation", urgency := .high
      timeoutMs := 15 * 60 * 1000
      autoNotify := ["technical_team"] }
  else if strIncludes r "selector not found" then
    { htype := "page_analysis_needed", urgency := .normal
      timeoutMs := 30 * 60 * 1000
      autoNotify := ["qa_team"] }
  else
    { htype := "general_assistance", urgency := .normal
      timeoutMs := 20 * 60 * 1000
      autoNotify := ["default_operators"] }

end ProductionAgent

/-! ## Browser streaming session server

From `src/handoff/browser-stream-server.ts`.  Operators are identified by
the number of their WebSocket connection; frames are recorded by the id of
the connection they are sent to. -/

namespace StreamSrv

/-- An operator input event (the payload of a WebSocket message handled by
`handleHumanInput`; the remaining kinds — `scroll`, `key`, `navigate`,
`back`, `forward`, `refresh`, … — behave identically for the claims and
are represented by `click` / `typeText` / `move`). -/
inductive InputEvent
  | click (x y : Nat)
  | move (x y : Nat)
  | typeText (text : String)
  deriving DecidableEq, Repr

/-- The mutable per-session state of a `HandoffSession`:
`isActive`, `humanConnected`, `streamInterval` (recorded as the id of the
connection whose closure the interval sends frames to, `none` when
cleared), and the set of connections whose `ws.on('message')` handlers
remain attached to the session (the source never removes a message
handler or closes an old socket when a new operator connects). -/
structure StreamSession where
  isActive : Bool
  humanConnected : Bool
  streamInterval : Option Nat
  handlers : List Nat
  deriving DecidableEq, Repr

/-- `createHandoffSession`: a fresh session is active, has no operator
connected, no streaming interval, and no attached message handlers. -/
def newSession : StreamSession :=
  { isActive := true, humanConnected := false
    streamInterval := none, handlers := [] }

/-- The `wss.on('connection')` handler for a known session id:
sets `humanConnected = true`, attaches the new socket's message handler,
and `startStreaming` clears any existing interval and starts a new one
bound to the new socket.  Nothing detaches or closes a previously
connected socket. -/
def operatorConnect (s : StreamSession) (op : Nat) : StreamSession :=
  { s with humanConnected := true
           streamInterval := some op
           handlers := s.handlers ++ [op] }

/-- The `ws.on('close')` handler: sets `humanConnected = false` and clears
the session's interval (whichever socket it was bound to); the closed
socket's message handler goes away with the socket. -/
def operatorDisconnect (s : StreamSession) (op : Nat) : StreamSession :=
  { s with humanConnected := false
           streamInterval := none
           handlers := s.handlers.erase op }

/-- One tick of the `setInterval` streaming loop in `startStreaming`:
with no interval nothing runs; otherwise, when `!session.humanConnected
|| !session.isActive`, the tick clears the interval and returns without
sending (no frame is produced or stored anywhere); otherwise one frame is
sent to the interval's socket.  The returned list holds the frames
emitted by the tick, by target connection id; the session state has no
frame buffer, matching the source. -/
def tick (s : StreamSession) : StreamSession × List Nat :=
  match s.streamInterval with
  | none => (s, [])
  | some op =>
      if s.humanConnected = false ∨ s.isActive = false then
        ({ s with streamInterval := none }, [])
      else (s, [op])

/-- All frames emitted over `n` consecutive ticks. -/
def ticksFrames : Nat → StreamSession → List Nat
  | 0, _ => []
  | n + 1, s => (tick s).2 ++ ticksFrames n (tick s).1

/-- A `ws.on('message')` delivery from connection `op`: `handleHumanInput`
runs — and the event reaches `session.page` — iff the connection's
handler is still attached, regardless of whether a newer operator has
since connected.  Returns the page actions performed. -/
def operatorInput (s : StreamSession) (op : Nat) (ev : InputEvent) :
    StreamSession × List InputEvent :=
  if s.handlers.contains op then (s, [ev]) else (s, [])

end StreamSrv

/-! ## Helper lemmas about the association-list map -/

namespace Handoff

theorem mapGet_mapSet_self (m : List (Nat × Request)) (k : Nat) (v : Request) :
    mapGet (mapSet m k v) k = some v := by
  induction m with
  | nil => simp [mapSet, mapGet]
  | cons p rest ih =>
      obtain ⟨k', v'⟩ := p
      by_cases h : k' = k <;> simp [mapSet, mapGet, h, ih]

theorem mapGet_mapSet_ne (m : List (Nat × Request)) (k q : Nat) (v : Request)
    (h : q ≠ k) : mapGet (mapSet m k v) q = mapGet m q := by
  induction m with
  | nil => simp [mapSet, mapGet, Ne.symm h]
  | cons p rest ih =>
      obtain ⟨k', v'⟩ := p
      by_cases hk : k' = k
      · subst hk
        simp [mapSet, mapGet, Ne.symm h]
      · by_cases hq : k' = q <;> simp [mapSet, mapGet, hk, hq, ih, h]

end Handoff

/-! ## Claim theorems -/

/-- Claim C1, counterexample: a handoff created with `urgency = high` has
`expires_at - created_at = 30` minutes, not the 15 minutes stated by the
claim — `createHandoff` only distinguishes `urgent` from everything
else. -/
theorem C1_counterexample :
    ((Handoff.mapGet
        (Handoff.createHandoff ⟨[], []⟩ 0 1 .high (some ["continue"])).1.handoffs 1).map
      (fun r => r.expires_at - r.created_at) = some (30 * 60 * 1000)) ∧
    (30 * 60 * 1000 : Nat) ≠ 15 * 60 * 1000 := by
  decide

/-- Claim C1 (amended): every request registered by the registry's create
operation satisfies `expires_at - created_at` = 5 minutes when the
urgency is `urgent` and 30 minutes otherwise (for `high` as well as
`normal`). -/
theorem C1_expiry_ttl (st : Handoff.RegistryState) (now hid : Nat)
    (u : Handoff.Urgency) (opts : Option (List String)) (r : Handoff.Request)
    (h : Handoff.mapGet (Handoff.createHandoff st now hid u opts).1.handoffs hid
      = some r) :
    r.expires_at - r.created_at =
      if u = .urgent then 5 * 60 * 1000 else 30 * 60 * 1000 := by
  have hset : Handoff.mapGet (Handoff.createHandoff st now hid u opts).1.handoffs hid
      = some (Handoff.createdRequest now hid u opts) := by
    cases opts <;> simp [Handoff.createHandoff, Handoff.mapGet_mapSet_self]
  rw [hset] at h
  injection h with h
  subst h
  simp [Handoff.createdRequest, Handoff.ttl]

/-- Claim C1, witness: instantiating the amended theorem at a concrete
`high`-urgency creation. -/
theorem C1_expiry_ttl_witness :
    ({ id := 1, options := ["continue"], urgency := .high, status := .waiting,
       created_at := 0, expires_at := 1800000, human_response := none,
       resolution_time := none } : Handoff.Request).expires_at -
      ({ id := 1, options := ["continue"], urgency := .high, status := .waiting,
         created_at := 0, expires_at := 1800000, human_response := none,
         resolution_time := none } : Handoff.Request).created_at =
      if Handoff.Urgency.high = .urgent then 5 * 60 * 1000 else 30 * 60 * 1000 :=
  C1_expiry_ttl ⟨[], []⟩ 0 1 .high (some ["continue"]) _ (by decide)

/-- Claim C2: whenever the failure classifies as `captcha_detected`, the
engine's decision is a handoff — never a retry, never an abort —
regardless of the attempt number and of the recorded failure patterns,
and the downstream urgency classifier assigns `urgent` to the handoff's
reason.  (The classifier of the source has no `two_factor` pattern at
all, so the claim's `two_factor` case is vacuous: `ErrorPattern`
enumerates every value `classifyError` can produce.) -/
theorem C2_captcha_always_escalates (msg : String) (attemptNumber : Nat)
    (pats : List FlowBrain.ErrorPattern)
    (h : FlowBrain.classifyError msg = .captcha_detected) :
    (FlowBrain.decideOnFailure (some msg) attemptNumber pats).action = .handoff ∧
    (ProductionAgent.classifyHandoff
      (FlowBrain.decideOnFailure (some msg) attemptNumber pats).reason).urgency
      = .urgent := by
  have hd : FlowBrain.decideOnFailure (some msg) attemptNumber pats =
      { action := .handoff
        reason := "CAPTCHA detected - human verification required"
        options := ["solve_captcha", "try_different_approach", "abort_task"] } := by
    simp [FlowBrain.decideOnFailure, h]
  rw [hd]
  exact ⟨rfl, by decide⟩

/-- Claim C2, witness: a concrete CAPTCHA failure at attempt 0 with no
recorded failure patterns. -/
theorem C2_captcha_always_escalates_witness :
    (FlowBrain.decideOnFailure (some "captcha") 0 []).action = .handoff ∧
    (ProductionAgent.classifyHandoff
      (FlowBrain.decideOnFailure (some "captcha") 0 []).reason).urgency = .urgent :=
  C2_captcha_always_escalates "captcha" 0 [] (by decide)

/-- Claim C3, counterexample: a failure classified `selector_not_found`
at attempt number 1, with `selector_not_found` already recorded among
the failure patterns (the classification has occurred before), is still
answered with a retry — the engine does not escalate early. -/
theorem C3_counterexample :
    (FlowBrain.decideOnFailure (some "selector xyz not found") 1
      [.selector_not_found]).action = .retry ∧
    FlowBrain.DecisionAction.retry ≠ .handoff := by
  decide

/-- Claim C3 (amended): the repeated-classification check of
`decideOnFailure` applies only to the `timeout` classification, and even
there it does not take precedence over the attempt-count ladder: for any
non-`timeout` classification the decision is entirely independent of the
recorded failure patterns, and a repeated `timeout` merely loses the
timeout-specific retry, after which the attempt ladder decides — handoff
iff the attempt number is at least 2, plain retry otherwise. -/
theorem C3_exhaustion_only_timeout :
    (∀ (msg : String) (n : Nat) (pats pats' : List FlowBrain.ErrorPattern),
        FlowBrain.classifyError msg ≠ .timeout →
        FlowBrain.decideOnFailure (some msg) n pats
          = FlowBrain.decideOnFailure (some msg) n pats') ∧
    (∀ (msg : String) (n : Nat) (pats : List FlowBrain.ErrorPattern),
        FlowBrain.classifyError msg = .timeout →
        pats.contains .timeout = true →
        (FlowBrain.decideOnFailure (some msg) n pats).action =
          if 2 ≤ n then .handoff else .retry) := by
  constructor
  · intro msg n pats pats' h
    simp only [FlowBrain.decideOnFailure, Option.getD_some]
    by_cases h1 : FlowBrain.classifyError msg = .captcha_detected
    · simp [h1]
    · by_cases h2 : FlowBrain.classifyError msg = .selector_not_found ∧ n < 2
      · simp [h1, h2]
      · simp [h1, h2, h]
  · intro msg n pats h hc
    simp only [FlowBrain.decideOnFailure, Option.getD_some, h, hc]
    by_cases h2 : 2 ≤ n <;> simp [h2, apply_ite FlowBrain.Decision.action]

/-- Claim C3, witness: instantiating both parts of the amended theorem —
an unclassifiable failure decided identically with and without recorded
patterns, and a repeated timeout at attempt 1 still answered with a
retry. -/
theorem C3_exhaustion_only_timeout_witness :
    (FlowBrain.decideOnFailure (some "mystery") 0 []
      = FlowBrain.decideOnFailure (some "mystery") 0 [.timeout]) ∧
    (FlowBrain.decideOnFailure (some "connection timeout") 1 [.timeout]).action =
      (if 2 ≤ 1 then FlowBrain.DecisionAction.handoff else .retry) :=
  ⟨C3_exhaustion_only_timeout.1 "mystery" 0 [] [.timeout] (by decide),
   C3_exhaustion_only_timeout.2 "connection timeout" 1 [.timeout]
     (by decide) (by decide)⟩

/-- Claim C4, counterexample: with both failures classifying as
`selector_not_found` and nothing in the failure-pattern set, the engine
retries the first failure but hands off on the second — the attempt
counter is incremented before `decideOnFailure` is consulted, so the
second failure is judged with attempt number 2 and already hits the
`attemptNumber >= 2` rung.  The claim's promised second retry never
happens. -/
theorem C4_counterexample :
    ((FlowBrain.orchestrateDecisions
        ["selector A not found", "selector A not found"] 0 []).map
      FlowBrain.Decision.action = [.retry, .handoff]) ∧
    FlowBrain.DecisionAction.handoff ≠ .retry := by
  decide

/-- Claim C4 (amended): for every attempt sequence whose first two
failures classify as `selector_not_found`, the engine retries the first
failure and escalates (hands off) on the second, whatever the recorded
failure patterns. -/
theorem C4_selector_retry_once (m1 m2 : String)
    (pats : List FlowBrain.ErrorPattern)
    (h1 : FlowBrain.classifyError m1 = .selector_not_found)
    (h2 : FlowBrain.classifyError m2 = .selector_not_found) :
    (FlowBrain.orchestrateDecisions [m1, m2] 0 pats).map FlowBrain.Decision.action
      = [.retry, .handoff] := by
  simp [FlowBrain.orchestrateDecisions, FlowBrain.decideOnFailure,
    FlowBrain.maxRetries, h1, h2]

/-- Claim C4, witness: the amended theorem at two concrete
selector-not-found failures. -/
theorem C4_selector_retry_once_witness :
    (FlowBrain.orchestrateDecisions
        ["selector not found", "no selector"] 0 [.timeout]).map
      FlowBrain.Decision.action = [.retry, .handoff] :=
  C4_selector_retry_once "selector not found" "no selector" [.timeout]
    (by decide) (by decide)


/-! ## Characterization lemmas for the registry operations -/

namespace Handoff

theorem createHandoff_fst (st : RegistryState) (now hid : Nat) (u : Urgency)
    (opts : Option (List String)) :
    (createHandoff st now hid u opts).1 =
      { st with handoffs := mapSet st.handoffs hid (createdRequest now hid u opts) } := by
  cases opts <;> rfl

theorem getHandoff_of_none (st : RegistryState) (now hid : Nat)
    (hm : mapGet st.handoffs hid = none) :
    getHandoff st now hid = (st, none) := by
  unfold getHandoff
  rw [hm]

theorem getHandoff_of_some (st : RegistryState) (now hid : Nat)
    (h : Request) (hm : mapGet st.handoffs hid = some h) :
    getHandoff st now hid =
      ({ st with handoffs := (mapSet st.handoffs hid
          (if now > h.expires_at then { h with status := .expired } else h)) },
        some (if now > h.expires_at then { h with status := .expired } else h)) := by
  unfold getHandoff
  rw [hm]

theorem respond_of_none (st : RegistryState) (now hid : Nat) (action : String)
    (c : Option String) (hm : mapGet st.handoffs hid = none) :
    respondToHandoff st now hid action c = (st, .notFound) := by
  unfold respondToHandoff
  rw [hm]

theorem respond_of_notWaiting (st : RegistryState) (now hid : Nat)
    (action : String) (c : Option String) (h : Request)
    (hm : mapGet st.handoffs hid = some h) (hw : h.status ≠ .waiting) :
    respondToHandoff st now hid action c = (st, .alreadyResolved h.status) := by
  unfold respondToHandoff
  rw [hm]
  simp only
  rw [if_pos hw]

theorem respond_of_invalidAction (st : RegistryState) (now hid : Nat)
    (action : String) (c : Option String) (h : Request)
    (hm : mapGet st.handoffs hid = some h) (hw : h.status = .waiting)
    (ha : h.options.contains action = false) :
    respondToHandoff st now hid action c = (st, .invalidAction h.options) := by
  unfold respondToHandoff
  rw [hm]
  simp only
  rw [if_neg (fun hcon => hcon hw),
    if_pos (fun hc => by rw [ha] at hc; exact Bool.noConfusion hc)]

theorem respond_of_ok (st : RegistryState) (now hid : Nat)
    (action : String) (c : Option String) (h : Request)
    (hm : mapGet st.handoffs hid = some h) (hw : h.status = .waiting)
    (ha : h.options.contains action = true) :
    respondToHandoff st now hid action c =
      ({ handoffs := mapSet st.handoffs hid
          { h with human_response := some { action := action, comment := c,
                                            responded_at := now }
                   status := .responded
                   resolution_time := some (now - h.created_at) }
         completed := hid :: st.completed },
        .ok { action := action, comment := c, responded_at := now }) := by
  unfold respondToHandoff
  rw [hm]
  simp only
  rw [if_neg (fun hcon => hcon hw), if_neg (fun hc => hc ha)]

end Handoff

/-- Claim C5, counterexample: a request that has been responded to
(status `responded`) is moved to status `expired` by a later
`getHandoff` once `now` passes `expires_at` — the lazy expiry check in
`getHandoff` does not test the current status, so the claimed
transition system is violated by the step `responded → expired`. -/
theorem C5_counterexample :
    ((Handoff.mapGet
        ((Handoff.respondToHandoff
            (Handoff.createHandoff ⟨[], []⟩ 0 1 .urgent (some ["continue"])).1
            10 1 "continue" none).1).handoffs 1).map Handoff.Request.status
      = some .responded) ∧
    ((Handoff.getHandoff
        (Handoff.respondToHandoff
            (Handoff.createHandoff ⟨[], []⟩ 0 1 .urgent (some ["continue"])).1
            10 1 "continue" none).1
        400000 1).2.map Handoff.Request.status = some .expired) ∧
    Handoff.Status.responded ≠ .expired := by
  decide

/-- Claim C5 (amended): across every registry operation (create with a
fresh id, get, respond), a request's status either stays what it was or
moves along `waiting → responded`, `waiting → expired`, or
`responded → expired` — the last transition being performed by
`getHandoff`'s status-blind lazy expiry; `expired` is absorbing and no
status ever moves back to `waiting`. -/
theorem C5_status_transitions (st : Handoff.RegistryState)
    (op : Handoff.RegistryOp) (hid : Nat) (r r' : Handoff.Request)
    (hfresh : ∀ now hid' u opts, op = .create now hid' u opts →
      Handoff.mapGet st.handoffs hid' = none)
    (hr : Handoff.mapGet st.handoffs hid = some r)
    (hr' : Handoff.mapGet (Handoff.applyOp st op).handoffs hid = some r') :
    r'.status = r.status ∨
    (r.status = .waiting ∧ (r'.status = .responded ∨ r'.status = .expired)) ∨
    (r.status = .responded ∧ r'.status = .expired) := by
  cases op with
  | create now hid' u opts =>
      have hn := hfresh now hid' u opts rfl
      have hne : hid ≠ hid' := by
        intro e
        rw [e, hn] at hr
        exact Option.noConfusion hr
      rw [Handoff.applyOp, Handoff.createHandoff_fst] at hr'
      simp only at hr'
      rw [Handoff.mapGet_mapSet_ne st.handoffs hid' hid _ hne, hr] at hr'
      injection hr' with e
      subst e
      exact Or.inl rfl
  | get now hid' =>
      by_cases he : hid = hid'
      · subst he
        rw [Handoff.applyOp, Handoff.getHandoff_of_some st now hid r hr] at hr'
        simp only at hr'
        rw [Handoff.mapGet_mapSet_self] at hr'
        injection hr' with e
        subst e
        by_cases hexp : now > r.expires_at
        · rw [if_pos hexp]
          cases hs : r.status with
          | waiting => exact Or.inr (Or.inl ⟨rfl, Or.inr rfl⟩)
          | responded => exact Or.inr (Or.inr ⟨rfl, rfl⟩)
          | expired => exact Or.inl rfl
        · rw [if_neg hexp]
          exact Or.inl rfl
      · have heq : Handoff.mapGet (Handoff.applyOp st (.get now hid')).handoffs hid
            = Handoff.mapGet st.handoffs hid := by
          rw [Handoff.applyOp]
          cases hm : Handoff.mapGet st.handoffs hid' with
          | none => rw [Handoff.getHandoff_of_none st now hid' hm]
          | some h =>
              rw [Handoff.getHandoff_of_some st now hid' h hm]
              exact Handoff.mapGet_mapSet_ne st.handoffs hid' hid _ he
        rw [heq, hr] at hr'
        injection hr' with e
        subst e
        exact Or.inl rfl
  | respond now hid' action comment =>
      by_cases he : hid = hid'
      · subst he
        by_cases hw : r.status = .waiting
        · by_cases ha : r.options.contains action
          · rw [Handoff.applyOp,
              Handoff.respond_of_ok st now hid action comment r hr hw ha] at hr'
            simp only at hr'
            rw [Handoff.mapGet_mapSet_self] at hr'
            injection hr' with e
            subst e
            exact Or.inr (Or.inl ⟨hw, Or.inl rfl⟩)
          · rw [Handoff.applyOp, Handoff.respond_of_invalidAction st now hid
              action comment r hr hw (Bool.of_not_eq_true ha), hr] at hr'
            injection hr' with e
            subst e
            exact Or.inl rfl
        · rw [Handoff.applyOp,
            Handoff.respond_of_notWaiting st now hid action comment r hr hw, hr] at hr'
          injection hr' with e
          subst e
          exact Or.inl rfl
      · have heq : Handoff.mapGet
            (Handoff.applyOp st (.respond now hid' action comment)).handoffs hid
            = Handoff.mapGet st.handoffs hid := by
          rw [Handoff.applyOp]
          cases hm : Handoff.mapGet st.handoffs hid' with
          | none => rw [Handoff.respond_of_none st now hid' action comment hm]
          | some h =>
              by_cases hw : h.status = .waiting
              · by_cases ha : h.options.contains action
                · rw [Handoff.respond_of_ok st now hid' action comment h hm hw ha]
                  exact Handoff.mapGet_mapSet_ne st.handoffs hid' hid _ he
                · rw [Handoff.respond_of_invalidAction st now hid' action comment
                    h hm hw (Bool.of_not_eq_true ha)]
              · rw [Handoff.respond_of_notWaiting st now hid' action comment h hm hw]
        rw [heq, hr] at hr'
        injection hr' with e
        subst e
        exact Or.inl rfl

/-- Claim C5, witness: the amended theorem at the concrete
`responded → expired` step performed by `getHandoff` past expiry. -/
theorem C5_status_transitions_witness :
    ({ id := 1, options := ["continue"], urgency := .urgent, status := .expired,
       created_at := 0, expires_at := 300000,
       human_response := some { action := "continue", comment := none,
                                responded_at := 10 },
       resolution_time := some 10 } : Handoff.Request).status =
      ({ id := 1, options := ["continue"], urgency := .urgent,
         status := .responded, created_at := 0, expires_at := 300000,
         human_response := some { action := "continue", comment := none,
                                  responded_at := 10 },
         resolution_time := some 10 } : Handoff.Request).status ∨
    (({ id := 1, options := ["continue"], urgency := .urgent,
        status := .responded, created_at := 0, expires_at := 300000,
        human_response := some { action := "continue", comment := none,
                                 responded_at := 10 },
        resolution_time := some 10 } : Handoff.Request).status = .waiting ∧
      (({ id := 1, options := ["continue"], urgency := .urgent,
          status := .expired, created_at := 0, expires_at := 300000,
          human_response := some { action := "continue", comment := none,
                                   responded_at := 10 },
          resolution_time := some 10 } : Handoff.Request).status = .responded ∨
        ({ id := 1, options := ["continue"], urgency := .urgent,
           status := .expired, created_at := 0, expires_at := 300000,
           human_response := some { action := "continue", comment := none,
                                    responded_at := 10 },
           resolution_time := some 10 } : Handoff.Request).status = .expired)) ∨
    (({ id := 1, options := ["continue"], urgency := .urgent,
        status := .responded, created_at := 0, expires_at := 300000,
        human_response := some { action := "continue", comment := none,
                                 responded_at := 10 },
        resolution_time := some 10 } : Handoff.Request).status = .responded ∧
      ({ id := 1, options := ["continue"], urgency := .urgent,
         status := .expired, created_at := 0, expires_at := 300000,
         human_response := some { action := "continue", comment := none,
                                  responded_at := 10 },
         resolution_time := some 10 } : Handoff.Request).status = .expired) :=
  C5_status_transitions
    ⟨[(1, { id := 1, options := ["continue"], urgency := .urgent,
            status := .responded, created_at := 0, expires_at := 300000,
            human_response := some { action := "continue", comment := none,
                                     responded_at := 10 },
            resolution_time := some 10 })], [1]⟩
    (.get 400000 1) 1 _ _
    (fun _ _ _ _ h => nomatch h) (by decide) (by decide)

/-- Claim C6, counterexample: a respond call arriving after `expires_at`
on a request whose status is still `waiting` (no read has marked it
expired) succeeds — `respondToHandoff` never consults `expires_at`, so
the post-expiry response is recorded and the status becomes `responded`
rather than the call being rejected with `AlreadyResolved`. -/
theorem C6_counterexample :
    (({ id := 1, options := ["continue"], urgency := .urgent,
        status := .waiting, created_at := 0, expires_at := 300000,
        human_response := none, resolution_time := none } :
        Handoff.Request).expires_at < 300001) ∧
    ((Handoff.respondToHandoff
        (Handoff.createHandoff ⟨[], []⟩ 0 1 .urgent (some ["continue"])).1
        300001 1 "continue" none).2 =
      .ok { action := "continue", comment := none, responded_at := 300001 }) ∧
    ((Handoff.mapGet (Handoff.respondToHandoff
        (Handoff.createHandoff ⟨[], []⟩ 0 1 .urgent (some ["continue"])).1
        300001 1 "continue" none).1.handoffs 1).map Handoff.Request.status
      = some .responded) := by
  decide

/-- Claim C6 (amended): a respond call after `expires_at` is rejected
with `AlreadyResolved` exactly when the request has already been marked
`expired` (by a prior `getHandoff` read past expiry); in that case
nothing is recorded and the state is unchanged.  `respondToHandoff`
itself never checks `expires_at`: on a request whose status is still
`waiting`, a valid action succeeds and sets the status to `responded`
no matter how far past `expires_at` the call arrives. -/
theorem C6_expiry_not_checked_by_respond (st : Handoff.RegistryState)
    (now hid : Nat) (action : String) (c : Option String) (r : Handoff.Request)
    (hr : Handoff.mapGet st.handoffs hid = some r) :
    (r.status = .expired →
      Handoff.respondToHandoff st now hid action c = (st, .alreadyResolved .expired)) ∧
    (r.status = .waiting → r.options.contains action = true →
      (Handoff.respondToHandoff st now hid action c).2 =
        .ok { action := action, comment := c, responded_at := now } ∧
      (Handoff.mapGet (Handoff.respondToHandoff st now hid action c).1.handoffs
          hid).map Handoff.Request.status = some .responded) := by
  constructor
  · intro hexp
    rw [Handoff.respond_of_notWaiting st now hid action c r hr
      (by rw [hexp]; exact fun h => Handoff.Status.noConfusion h), hexp]
  · intro hw ha
    rw [Handoff.respond_of_ok st now hid action c r hr hw ha]
    constructor
    · rfl
    · simp only
      rw [Handoff.mapGet_mapSet_self]
      rfl

/-- Claim C6, witness: the amended theorem applied at a concrete
already-expired request (rejection) and at a concrete still-waiting
request past its `expires_at` (successful response). -/
theorem C6_expiry_not_checked_by_respond_witness :
    (Handoff.respondToHandoff
        ⟨[(1, { id := 1, options := ["continue"], urgency := .urgent,
                status := .expired, created_at := 0, expires_at := 300000,
                human_response := none, resolution_time := none })], []⟩
        400000 1 "continue" none =
      (⟨[(1, { id := 1, options := ["continue"], urgency := .urgent,
               status := .expired, created_at := 0, expires_at := 300000,
               human_response := none, resolution_time := none })], []⟩,
        .alreadyResolved .expired)) ∧
    ((Handoff.respondToHandoff
        ⟨[(1, { id := 1, options := ["continue"], urgency := .urgent,
                status := .waiting, created_at := 0, expires_at := 300000,
                human_response := none, resolution_time := none })], []⟩
        400000 1 "continue" none).2 =
      .ok { action := "continue", comment := none, responded_at := 400000 }) :=
  ⟨(C6_expiry_not_checked_by_respond
      ⟨[(1, { id := 1, options := ["continue"], urgency := .urgent,
              status := .expired, created_at := 0, expires_at := 300000,
              human_response := none, resolution_time := none })], []⟩
      400000 1 "continue" none
      { id := 1, options := ["continue"], urgency := .urgent,
        status := .expired, created_at := 0, expires_at := 300000,
        human_response := none, resolution_time := none }
      (by decide)).1 rfl,
   ((C6_expiry_not_checked_by_respond
      ⟨[(1, { id := 1, options := ["continue"], urgency := .urgent,
              status := .waiting, created_at := 0, expires_at := 300000,
              human_response := none, resolution_time := none })], []⟩
      400000 1 "continue" none
      { id := 1, options := ["continue"], urgency := .urgent,
        status := .waiting, created_at := 0, expires_at := 300000,
        human_response := none, resolution_time := none }
      (by decide)).2 rfl (by decide)).1⟩

/-- Claim C7: `respondToHandoff` rejects an unknown id with `NotFound`;
rejects an action outside the request's options (on a waiting request)
with `InvalidAction` carrying the allowed options, leaving the state
unchanged; and rejects any request whose status is not `waiting` with
`AlreadyResolved`, again leaving the state unchanged — in particular a
second respond on an already-`responded` request returns
`AlreadyResolved` and the recorded first response survives untouched. -/
theorem C7_respond_validation (st : Handoff.RegistryState) (now hid : Nat)
    (action : String) (c : Option String) :
    (Handoff.mapGet st.handoffs hid = none →
      Handoff.respondToHandoff st now hid action c = (st, .notFound)) ∧
    (∀ r, Handoff.mapGet st.handoffs hid = some r →
      (r.status = .waiting → r.options.contains action = false →
        Handoff.respondToHandoff st now hid action c = (st, .invalidAction r.options)) ∧
      (r.status ≠ .waiting →
        Handoff.respondToHandoff st now hid action c = (st, .alreadyResolved r.status))) := by
  refine ⟨fun hm => Handoff.respond_of_none st now hid action c hm, fun r hr => ⟨?_, ?_⟩⟩
  · intro hw ha
    exact Handoff.respond_of_invalidAction st now hid action c r hr hw ha
  · intro hw
    exact Handoff.respond_of_notWaiting st now hid action c r hr hw

/-- Claim C7, witness: the three rejection branches at concrete inputs —
an unknown id, an action outside the options of a waiting request, and a
second respond on an already-responded request. -/
theorem C7_respond_validation_witness :
    (Handoff.respondToHandoff ⟨[], []⟩ 0 7 "continue" none =
      (⟨[], []⟩, .notFound)) ∧
    (Handoff.respondToHandoff
        ⟨[(1, { id := 1, options := ["continue", "abort"], urgency := .normal,
                status := .waiting, created_at := 0, expires_at := 1800000,
                human_response := none, resolution_time := none })], []⟩
        5 1 "dance" none =
      (⟨[(1, { id := 1, options := ["continue", "abort"], urgency := .normal,
               status := .waiting, created_at := 0, expires_at := 1800000,
               human_response := none, resolution_time := none })], []⟩,
        .invalidAction ["continue", "abort"])) ∧
    (Handoff.respondToHandoff
        ⟨[(1, { id := 1, options := ["continue"], urgency := .normal,
                status := .responded, created_at := 0, expires_at := 1800000,
                human_response := some { action := "continue", comment := none,
                                         responded_at := 5 },
                resolution_time := some 5 })], []⟩
        9 1 "continue" none =
      (⟨[(1, { id := 1, options := ["continue"], urgency := .normal,
               status := .responded, created_at := 0, expires_at := 1800000,
               human_response := some { action := "continue", comment := none,
                                        responded_at := 5 },
               resolution_time := some 5 })], []⟩,
        .alreadyResolved .responded)) :=
  ⟨(C7_respond_validation ⟨[], []⟩ 0 7 "continue" none).1 rfl,
   ((C7_respond_validation
      ⟨[(1, { id := 1, options := ["continue", "abort"], urgency := .normal,
              status := .waiting, created_at := 0, expires_at := 1800000,
              human_response := none, resolution_time := none })], []⟩
      5 1 "dance" none).2
      { id := 1, options := ["continue", "abort"], urgency := .normal,
        status := .waiting, created_at := 0, expires_at := 1800000,
        human_response := none, resolution_time := none }
      (by decide)).1 rfl (by decide),
   ((C7_respond_validation
      ⟨[(1, { id := 1, options := ["continue"], urgency := .normal,
              status := .responded, created_at := 0, expires_at := 1800000,
              human_response := some { action := "continue", comment := none,
                                       responded_at := 5 },
              resolution_time := some 5 })], []⟩
      9 1 "continue" none).2
      { id := 1, options := ["continue"], urgency := .normal,
        status := .responded, created_at := 0, expires_at := 1800000,
        human_response := some { action := "continue", comment := none,
                                 responded_at := 5 },
        resolution_time := some 5 }
      (by decide)).2
     (fun h => Handoff.Status.noConfusion h)⟩

/-- Claim C8, counterexample: after operator 2 connects to a session
already held by operator 1, the streaming interval targets only
operator 2 — yet an input event sent by operator 1 is still processed
and forwarded to the page, because the server neither closes the old
socket nor removes its message handler.  The earlier connection is not
evicted. -/
theorem C8_counterexample :
    ((StreamSrv.operatorConnect
        (StreamSrv.operatorConnect StreamSrv.newSession 1) 2).streamInterval
      = some 2) ∧
    ((StreamSrv.operatorInput
        (StreamSrv.operatorConnect
          (StreamSrv.operatorConnect StreamSrv.newSession 1) 2)
        1 (.click 5 7)).2 = [.click 5 7]) := by
  decide

/-- Claim C8 (amended): when a new operator connects to a session that
already has a connected operator, only the frame stream is taken over —
every frame a subsequent streaming tick emits goes to the newest
connection — but the earlier connection is not evicted: its message
handler remains attached, so its input events are still processed by
the session. -/
theorem C8_newest_operator_gets_frames (s : StreamSrv.StreamSession)
    (a b : Nat) (ev : StreamSrv.InputEvent) :
    (∀ t ∈ (StreamSrv.tick
        (StreamSrv.operatorConnect (StreamSrv.operatorConnect s a) b)).2, t = b) ∧
    (StreamSrv.operatorInput
        (StreamSrv.operatorConnect (StreamSrv.operatorConnect s a) b) a ev).2
      = [ev] := by
  constructor
  · intro t ht
    by_cases hact : ((StreamSrv.operatorConnect
        (StreamSrv.operatorConnect s a) b).isActive = false)
    · rw [StreamSrv.tick] at ht
      simp only [StreamSrv.operatorConnect] at ht hact
      rw [if_pos (Or.inr hact)] at ht
      exact absurd ht (List.not_mem_nil t)
    · rw [StreamSrv.tick] at ht
      simp only [StreamSrv.operatorConnect] at ht hact
      rw [if_neg (by simp [hact])] at ht
      simpa using ht
  · have hc : ((StreamSrv.operatorConnect
        (StreamSrv.operatorConnect s a) b).handlers.contains a) = true := by
      simp [StreamSrv.operatorConnect, List.contains, List.elem_eq_mem]
    rw [StreamSrv.operatorInput, if_pos hc]

/-- Claim C8, witness: the amended theorem at a fresh session and
operators 1 and 2. -/
theorem C8_newest_operator_gets_frames_witness :
    (∀ t ∈ (StreamSrv.tick
        (StreamSrv.operatorConnect
          (StreamSrv.operatorConnect StreamSrv.newSession 1) 2)).2, t = 2) ∧
    (StreamSrv.operatorInput
        (StreamSrv.operatorConnect
          (StreamSrv.operatorConnect StreamSrv.newSession 1) 2)
        1 (.move 3 4)).2 = [.move 3 4] :=
  C8_newest_operator_gets_frames StreamSrv.newSession 1 2 (.move 3 4)

/-- Claim C9: a session whose `humanConnected` flag is down emits no
frame on any number of consecutive streaming ticks — the tick guard
returns without sending, and the model (like the source) has no frame
buffer at all, so nothing is queued for later delivery either: the
frame count over the whole period is zero. -/
theorem C9_no_operator_no_frames (n : Nat) (s : StreamSrv.StreamSession)
    (h : s.humanConnected = false) :
    StreamSrv.ticksFrames n s = [] := by
  induction n generalizing s with
  | zero => rfl
  | succ n ih =>
      have hstep : (StreamSrv.tick s).2 = [] ∧
          (StreamSrv.tick s).1.humanConnected = false := by
        rw [StreamSrv.tick]
        cases hsi : s.streamInterval with
        | none => exact ⟨rfl, h⟩
        | some op =>
            simp only
            rw [if_pos (Or.inl h)]
            exact ⟨rfl, h⟩
      rw [StreamSrv.ticksFrames, hstep.1, ih (StreamSrv.tick s).1 hstep.2]
      rfl

/-- Claim C9, witness: five ticks on a freshly created session (no
operator ever connected) emit nothing. -/
theorem C9_no_operator_no_frames_witness :
    StreamSrv.ticksFrames 5 StreamSrv.newSession = [] :=
  C9_no_operator_no_frames 5 StreamSrv.newSession rfl

/-- Claim C10: a create call whose body omits `options` first registers
the new request — with the default options `continue`,
`modify_approach`, `abort` — and only then crashes with a `TypeError`
(the `console.log` dereferences the `undefined` destructured `options`),
so the caller gets an error while the request stays in the registry:
creation is not atomic on this path. -/
theorem C10_create_typeerror_not_atomic (st : Handoff.RegistryState)
    (now hid : Nat) (u : Handoff.Urgency) :
    (Handoff.createHandoff st now hid u none).2 = .typeError ∧
    Handoff.mapGet (Handoff.createHandoff st now hid u none).1.handoffs hid =
      some (Handoff.createdRequest now hid u none) ∧
    (Handoff.createdRequest now hid u none).options =
      ["continue", "modify_approach", "abort"] := by
  refine ⟨rfl, ?_, rfl⟩
  rw [Handoff.createHandoff_fst]
  simp only
  exact Handoff.mapGet_mapSet_self st.handoffs hid _
